import Mathlib

/-!
Verification of the algorithmic core of keras_cv/models/mobilenet_v2.py:
the channel-depth rounding function (Depth), the padding-amount function
(CorrectPad) and the inverted residual block builder (InvertedResBlock).

Modelling conventions:
* Python floats that appear in the source (divisor / 2, 0.9 * x,
  filters * alpha) are modelled as exact rationals.
* Python int() is truncation toward zero (pyInt); Python // on integers is
  floor division (Int.fdiv); Python % on integers is floor remainder
  (Int.emod agrees with it on the non-negative operands used here).
* The external numeric backend (TensorFlow/Keras layer primitives) is out of
  scope per the spec; layer constructors are modelled as record creation and
  layer application as opaque functions supplied by a Backend structure.
* A Python read of a local variable before its assignment raises
  UnboundLocalError; such a read is modelled as a failing Option read
  ((none : Option _).bind ...), and a computation that would raise returns
  none.  Two such reads exist in the source: see CorrectPadLayer.applyPad
  and InvertedResBlockApply below.
-/

namespace MobileNetV2

/-- Python int() on an exact rational value: truncation toward zero. -/
def pyInt (q : ℚ) : ℤ := if 0 ≤ q then ⌊q⌋ else ⌈q⌉

/-- The value returned by Depth (src lines 114-140).  In Python, Depth
returns its inner apply closure; the closure captures only divisor and
min_value, so we record those together with the resolved layer name
(lines 126-127), which the closure never reads. -/
structure DepthLayer where
  divisor : ℤ
  min_value : ℤ
  name : String
deriving DecidableEq

/-- Depth(divisor=8, min_value=None, name=None), src lines 114-131:
name defaults to an auto-generated label from the backend uid counter
(modelled by the uid argument), and min_value defaults to divisor. -/
def Depth (divisor : ℤ) (min_value : Option ℤ) (name : Option String)
    (uid : ℕ) : DepthLayer :=
  { divisor := divisor
    min_value := min_value.getD divisor
    name := name.getD ("depth_" ++ toString uid) }

/-- The apply closure of Depth, src lines 132-138:
new_x = max(min_value, int(x + divisor / 2) // divisor * divisor);
if new_x < 0.9 * x: new_x += divisor; return new_x.
Python // is floor division (Int.fdiv); 0.9 is the exact rational 9/10. -/
def DepthLayer.applyD (l : DepthLayer) (x : ℚ) : ℤ :=
  let new_x : ℤ := (pyInt (x + (l.divisor : ℚ) / 2)).fdiv l.divisor * l.divisor
  let new_x : ℤ := max l.min_value new_x
  if (new_x : ℚ) < 9 / 10 * x then new_x + l.divisor else new_x

/-- Natural-number shadow of DepthLayer.applyD for a natural target and a
positive natural divisor: used to carry the arithmetic reasoning. -/
def depthN (divisor min_value x : ℕ) : ℕ :=
  let c := max min_value ((x + divisor / 2) / divisor * divisor)
  if 10 * c < 9 * x then c + divisor else c

/-- The Depth Rounding Function exactly as the spec (section 4.1) words it,
for comparison with the source translation DepthLayer.applyD:
candidate = max(min_value, floor((target + divisor/2) / divisor) * divisor);
if candidate < 0.9 * target, return candidate + divisor, else candidate. -/
def round_channels_spec (target divisor min_value : ℕ) : ℤ :=
  let candidate : ℤ :=
    max (min_value : ℤ)
      (⌊((target : ℚ) + (divisor : ℚ) / 2) / (divisor : ℚ)⌋ * divisor)
  if (candidate : ℚ) < 9 / 10 * (target : ℚ) then candidate + divisor
  else candidate

/-- The kernel_size argument of CorrectPad: an integer or a pair. -/
inductive KernelSize where
  | int (k : ℕ)
  | pair (k0 k1 : ℕ)
deriving DecidableEq

/-- Lines 97-98 of the source resolve an integer kernel size to a pair. -/
def resolveKernel : KernelSize → ℕ × ℕ
  | KernelSize.int k => (k, k)
  | KernelSize.pair a b => (a, b)

/-- The value returned by CorrectPad (src lines 80-110): the enclosing
kernel_size argument and the resolved layer name. -/
structure CorrectPadLayer where
  kernel_size : KernelSize
  name : String
deriving DecidableEq

/-- CorrectPad(kernel_size, name=None), src lines 80-91: name defaults to an
auto-generated label from the backend uid counter. -/
def CorrectPad (kernel_size : KernelSize) (name : Option String)
    (uid : ℕ) : CorrectPadLayer :=
  { kernel_size := kernel_size
    name := name.getD ("correct_pad_" ++ toString uid) }

/-- Lines 100-108 of the source, the part of the apply closure of CorrectPad
after the kernel size has been resolved to a pair.  input_size is the pair
of spatial dimensions from backend.int_shape, where none is an unknown
(dynamic) dimension.  The source checks only input_size[0] for None; when
input_size[0] is known but input_size[1] is unknown, line 103 computes
1 - None % 2, a Python TypeError, modelled as none. -/
def correctPadBody (kernel : ℕ × ℕ) (input_size : Option ℕ × Option ℕ) :
    Option ((ℤ × ℤ) × (ℤ × ℤ)) :=
  let adjust : Option (ℤ × ℤ) :=
    match input_size.1 with
    | none => some (1, 1)
    | some d0 =>
      match input_size.2 with
      | none => none
      | some d1 => some (1 - (d0 : ℤ) % 2, 1 - (d1 : ℤ) % 2)
  adjust.bind fun adj =>
    let correct : ℤ × ℤ := (((kernel.1 / 2 : ℕ) : ℤ), ((kernel.2 / 2 : ℕ) : ℤ))
    some ((correct.1 - adj.1, correct.1), (correct.2 - adj.2, correct.2))

/-- The apply closure of CorrectPad, src lines 93-108.  Line 98 assigns
kernel_size inside apply, which in Python makes kernel_size a local variable
of apply everywhere in its body; the read at line 97
(isinstance(kernel_size, int)) therefore happens before any assignment to
that local and raises UnboundLocalError on every call.  The failed read of
the unassigned local is the (none : Option KernelSize); the rest of the body
(correctPadBody, lines 100-108) sits under it and is unreachable.  The
enclosing kernel_size captured in the layer record is shadowed and never
read, faithfully to the source. -/
def CorrectPadLayer.applyPad (_l : CorrectPadLayer)
    (input_size : Option ℕ × Option ℕ) : Option ((ℤ × ℤ) × (ℤ × ℤ)) :=
  (none : Option KernelSize).bind fun ks =>
    correctPadBody (resolveKernel ks) input_size

/-- A feature map as this core sees it: an optional batch size, two optional
spatial dimensions (none = dynamic), a known channel count, and otherwise
opaque numeric contents of type α owned by the backend. -/
structure FeatureMap (α : Type) where
  batch : Option ℕ
  height : Option ℕ
  width : Option ℕ
  channels : ℕ
  data : α

/-- The filters argument passed to the backend Conv2D constructor.  In the
source it is an int expression for the expansion convolution (line 199), but
for the projection convolution (line 176) it is pointwise_filters, which
line 151 sets to the UNAPPLIED closure returned by
Depth(pointwise_conv_filters, 8) -- a Python function object, not a number. -/
inductive Filters where
  | int (n : ℤ)
  | closure (l : DepthLayer)
deriving DecidableEq

/-- Python == between the int in_channels and pointwise_filters
(src line 225).  Two ints compare numerically; an int compared with a
function object is False (no error is raised). -/
def pyEqFilters (n : ℤ) (f : Filters) : Bool :=
  match f with
  | Filters.int m => n == m
  | Filters.closure _ => false

/-- Configuration record of a backend BatchNormalization layer
(src lines 153-158, 169-174, 184-189). -/
structure BatchNormCfg where
  axis : ℤ
  epsilon : ℚ
  momentum : ℚ
  name : String
deriving DecidableEq

/-- Configuration record of a backend ReLU layer (src lines 160, 175). -/
structure ReLUCfg where
  max_value : ℚ
  name : String
deriving DecidableEq

/-- Configuration record of a backend DepthwiseConv2D layer
(src lines 161-168). -/
structure DepthwiseConv2DCfg where
  kernel_size : ℕ
  strides : ℤ
  use_bias : Bool
  padding : String
  name : String
deriving DecidableEq

/-- Configuration record of a backend Conv2D layer (src lines 176-183 and
199-206). -/
structure Conv2DCfg where
  filters : Filters
  kernel_size : ℕ
  padding : String
  use_bias : Bool
  name : String
deriving DecidableEq

/-- Configuration record of a backend Add layer (src line 190). -/
structure AddCfg where
  name : String
deriving DecidableEq

/-- Configuration record of a backend ZeroPadding2D layer (src line 214). -/
structure ZeroPadding2DCfg where
  padding : (ℤ × ℤ) × (ℤ × ℤ)
  name : String
deriving DecidableEq

/-- The opaque numeric backend of the spec (section 6): one transformation
per layer primitive.  Nothing in this development constrains these
functions; the theorems below hold for every backend.  conv2d receives the
resolved integer filter count; a Conv2D whose filters field is not an
integer (the unapplied Depth closure of src line 151) is rejected by the
backend, see InvertedResBlockApply. -/
structure Backend (α : Type) where
  conv2d : Conv2DCfg → ℤ → FeatureMap α → FeatureMap α
  depthwiseConv2d : DepthwiseConv2DCfg → FeatureMap α → FeatureMap α
  batchNorm : BatchNormCfg → FeatureMap α → FeatureMap α
  relu : ReLUCfg → FeatureMap α → FeatureMap α
  zeroPad : ZeroPadding2DCfg → FeatureMap α → FeatureMap α
  add : AddCfg → FeatureMap α → FeatureMap α → FeatureMap α

/-- An arbitrary concrete backend instance over trivial contents, used only
to evaluate the block on concrete inputs in witnesses. -/
def unitBackend : Backend Unit :=
  { conv2d := fun _ _ x => x
    depthwiseConv2d := fun _ x => x
    batchNorm := fun _ x => x
    relu := fun _ x => x
    zeroPad := fun _ x => x
    add := fun _ x _ => x }

/-- Everything InvertedResBlock (src lines 142-190) computes before
returning its apply closure: the hyperparameters, the resolved name, the
outer prefix string of line 146 (which the apply closure never reads -- its
own prefix is a distinct local variable, see InvertedResBlockApply), the
truncated pointwise_conv_filters of line 148, the value of line 151
(the unapplied Depth closure), and the eight backend sublayer records. -/
structure BuiltBlock where
  expansion : ℤ
  stride : ℤ
  alpha : ℚ
  filters : ℤ
  block_id : ℕ
  name : String
  pfxOuter : String
  pointwise_conv_filters : ℤ
  pointwise_filters : Filters
  batch_norm_1 : BatchNormCfg
  correct_pad : CorrectPadLayer
  activation_1 : ReLUCfg
  depthwise_conv2d_1 : DepthwiseConv2DCfg
  batch_norm_2 : BatchNormCfg
  activation_2 : ReLUCfg
  conv2d_1 : Conv2DCfg
  batch_norm_3 : BatchNormCfg
  add : AddCfg

/-- InvertedResBlock(expansion, stride, alpha, filters, block_id, name=None),
src lines 142-190.  Line 148: pointwise_conv_filters = int(filters * alpha).
Line 151: pointwise_filters = Depth(pointwise_conv_filters, 8), i.e. the
Depth builder is called with divisor = pointwise_conv_filters and
min_value = 8 and its returned apply closure is stored WITHOUT being
applied; that closure is what line 176 passes to Conv2D as filters.  The
single uid argument models the per-key backend uid counters used for the
auto-generated block, correct_pad and depth names. -/
def InvertedResBlock (expansion stride : ℤ) (alpha : ℚ) (filters : ℤ)
    (block_id : ℕ) (name : Option String) (uid : ℕ) : BuiltBlock :=
  let nm := name.getD ("inverted_res_block_" ++ toString uid)
  let pfx := "block_" ++ toString block_id ++ "_"
  let pcf : ℤ := pyInt ((filters : ℚ) * alpha)
  let pf : Filters := Filters.closure (Depth pcf (some 8) none uid)
  { expansion := expansion
    stride := stride
    alpha := alpha
    filters := filters
    block_id := block_id
    name := nm
    pfxOuter := pfx
    pointwise_conv_filters := pcf
    pointwise_filters := pf
    batch_norm_1 :=
      { axis := -1, epsilon := 1/1000, momentum := 999/1000
        name := pfx ++ "expand_BN" }
    correct_pad := CorrectPad (KernelSize.int 3) none uid
    activation_1 := { max_value := 6, name := pfx ++ "expand_relu" }
    depthwise_conv2d_1 :=
      { kernel_size := 3, strides := stride, use_bias := false
        padding := if stride = 1 then "same" else "valid"
        name := pfx ++ "depthwise" }
    batch_norm_2 :=
      { axis := -1, epsilon := 1/1000, momentum := 999/1000
        name := pfx ++ "depthwise_BN" }
    activation_2 := { max_value := 6, name := pfx ++ "depthwise_relu" }
    conv2d_1 :=
      { filters := pf, kernel_size := 1, padding := "same"
        use_bias := false, name := pfx ++ "project" }
    batch_norm_3 :=
      { axis := -1, epsilon := 1/1000, momentum := 999/1000
        name := pfx ++ "project_BN" }
    add := { name := pfx ++ "add" } }

/-- The backend layer objects allocated during one call of
InvertedResBlock, in source order (lines 153-190): the eight keras layers.
CorrectPad and Depth are plain closures in this file, not backend layers. -/
def buildAllocs (blk : BuiltBlock) : List String :=
  [blk.batch_norm_1.name, blk.activation_1.name, blk.depthwise_conv2d_1.name,
   blk.batch_norm_2.name, blk.activation_2.name, blk.conv2d_1.name,
   blk.batch_norm_3.name, blk.add.name]

/-- The apply closure of InvertedResBlock, src lines 192-228, over an
arbitrary backend.  The returned list records the names of the backend
layers allocated INSIDE this call (the expansion Conv2D of line 199 and the
ZeroPadding2D of line 214), in order, up to the point of success or failure.

Python scoping, faithfully to the source: prefix is assigned inside apply
(line 210, the else branch only), which makes prefix a local variable of
apply everywhere in its body.  On the block_id != 0 path, line 205 reads
prefix (to build the expansion conv name) before any assignment to it:
UnboundLocalError, modelled as the failing (none : Option String) read
under which the whole expansion pipeline (lines 199-208) sits, unreachable.
On the block_id == 0 path the local prefix is assigned "expanded_conv_"
(line 210) before any read.

Line 214 evaluates correct_pad(x) before allocating the ZeroPadding2D
layer; that call always fails (see CorrectPadLayer.applyPad).

Line 222 applies conv2d_1, whose filters field holds the unapplied Depth
closure of line 151 instead of an integer; the backend rejects a
non-integer filter count, modelled as none.

Line 225: in_channels == pointwise_filters uses Python equality between an
int and a function object (pyEqFilters). -/
def InvertedResBlockApply {α : Type} (B : Backend α) (blk : BuiltBlock)
    (inputs : FeatureMap α) : Option (FeatureMap α) × List String :=
  let in_channels : ℤ := (inputs.channels : ℤ)
  let step1 : Option (String × FeatureMap α × List String) :=
    if blk.block_id ≠ 0 then
      (none : Option String).bind fun pfx =>
        let cfg : Conv2DCfg :=
          { filters := Filters.int (blk.expansion * in_channels)
            kernel_size := 1
            padding := "same"
            use_bias := false
            name := pfx ++ "expand" }
        let x1 := B.conv2d cfg (blk.expansion * in_channels) inputs
        let x2 := B.batchNorm blk.batch_norm_1 x1
        let x3 := B.relu blk.activation_1 x2
        some (pfx, x3, [cfg.name])
    else
      some ("expanded_conv_", inputs, [])
  match step1 with
  | none => (none, [])
  | some (pfx, x0, log1) =>
    let step2 : Option (FeatureMap α × List String) :=
      if blk.stride = 2 then
        (blk.correct_pad.applyPad (x0.height, x0.width)).bind fun pad =>
          let zp : ZeroPadding2DCfg := { padding := pad, name := pfx ++ "pad" }
          some (B.zeroPad zp x0, log1 ++ [zp.name])
      else
        some (x0, log1)
    match step2 with
    | none => (none, log1)
    | some (x1, log2) =>
      let x2 := B.depthwiseConv2d blk.depthwise_conv2d_1 x1
      let x3 := B.batchNorm blk.batch_norm_2 x2
      let x4 := B.relu blk.activation_2 x3
      match blk.conv2d_1.filters with
      | Filters.closure _ => (none, log2)
      | Filters.int nf =>
        let x5 := B.conv2d blk.conv2d_1 nf x4
        let x6 := B.batchNorm blk.batch_norm_3 x5
        if pyEqFilters in_channels blk.pointwise_filters && (blk.stride == 1) then
          (some (B.add blk.add inputs x6), log2)
        else
          (some x6, log2)

/-- Error kind a fail-fast reimplementation would raise at construction
time (spec section 7).  The reference builder raises no such error. -/
inductive ConfigurationError where
  | invalid (msg : String)

/-- InvertedResBlock construction with an explicit error channel for
configuration errors raised by the builder itself.  The builder body
(src lines 142-190) is straight-line code with no raise statement and no
validation of expansion, stride, alpha or filters, so construction always
succeeds; backend-internal constructor behaviour is out of scope. -/
def InvertedResBlockE (expansion stride : ℤ) (alpha : ℚ) (filters : ℤ)
    (block_id : ℕ) (name : Option String) (uid : ℕ) :
    Except ConfigurationError BuiltBlock :=
  Except.ok (InvertedResBlock expansion stride alpha filters block_id name uid)

/-- A stride-1 stem block (block_id = 0) whose input channel count equals
the channel count the projection was intended to have:
int(8 * 1.0) = 8 and round_channels(8, 8) = 8. -/
def blockB0 : BuiltBlock := InvertedResBlock 6 1 1 8 0 none 0

/-- A stride-1 non-stem block with filters = 16, alpha = 1.0. -/
def blockB1 : BuiltBlock := InvertedResBlock 6 1 1 16 1 none 0

/-- A concrete 8-channel feature map with known even spatial dimensions. -/
def fm8 : FeatureMap Unit :=
  { batch := some 1, height := some 4, width := some 4, channels := 8
    data := () }

/-! Helper lemmas: the exact-rational translation of the Depth apply closure
agrees with a natural-number shadow computation on natural inputs. -/

theorem pyInt_intCast (z : ℤ) : pyInt (z : ℚ) = z := by
  unfold pyInt
  split
  · exact Int.floor_intCast z
  · exact Int.ceil_intCast z

theorem pyInt_natAdd_half (t d : ℕ) :
    pyInt ((t : ℚ) + (d : ℚ) / 2) = (t : ℤ) + ((d / 2 : ℕ) : ℤ) := by
  have h0 : (0:ℚ) ≤ (t : ℚ) + (d : ℚ) / 2 := by positivity
  rw [pyInt, if_pos h0]
  have h1 : (t : ℚ) + (d : ℚ) / 2 = ((t : ℤ) : ℚ) + ((d : ℤ) : ℚ) / ((2 : ℕ) : ℚ) := by
    push_cast; ring
  rw [h1, Int.floor_int_add, Rat.floor_intCast_div_natCast, Int.ofNat_ediv]

theorem lt_nineTenths_iff (c t : ℕ) :
    ((c : ℚ) < 9 / 10 * (t : ℚ)) ↔ 10 * c < 9 * t := by
  rw [div_mul_eq_mul_div, lt_div_iff₀ (by norm_num : (0:ℚ) < 10)]
  rw [show (c : ℚ) * 10 = ((10 * c : ℕ) : ℚ) by push_cast; ring]
  rw [show (9 : ℚ) * (t : ℚ) = ((9 * t : ℕ) : ℚ) by push_cast; ring]
  exact Nat.cast_lt

theorem applyD_natBridge (nm : String) (d m t : ℕ) :
    DepthLayer.applyD ⟨(d : ℤ), (m : ℤ), nm⟩ (t : ℚ) = ((depthN d m t : ℕ) : ℤ) := by
  have hfd : (pyInt ((t : ℚ) + (((d : ℤ) : ℚ)) / 2)).fdiv (d : ℤ) * (d : ℤ)
      = (((t + d / 2) / d * d : ℕ) : ℤ) := by
    have h1 : (((d : ℤ) : ℚ)) = ((d : ℕ) : ℚ) := by push_cast; ring
    rw [h1, pyInt_natAdd_half]
    rw [show ((t : ℤ) + ((d / 2 : ℕ) : ℤ)) = (((t + d / 2 : ℕ)) : ℤ) by push_cast; ring]
    rw [Int.fdiv_eq_ediv _ (by positivity : (0:ℤ) ≤ ((d : ℕ) : ℤ))]
    rw [← Int.ofNat_ediv]
    push_cast
    ring
  show (if ((max ((m:ℕ):ℤ) ((pyInt ((t : ℚ) + (((d:ℕ):ℤ) : ℚ) / 2)).fdiv ((d:ℕ):ℤ) * ((d:ℕ):ℤ)) : ℤ) : ℚ) < 9 / 10 * (t:ℚ)
        then max ((m:ℕ):ℤ) ((pyInt ((t : ℚ) + (((d:ℕ):ℤ) : ℚ) / 2)).fdiv ((d:ℕ):ℤ) * ((d:ℕ):ℤ)) + ((d:ℕ):ℤ)
        else max ((m:ℕ):ℤ) ((pyInt ((t : ℚ) + (((d:ℕ):ℤ) : ℚ) / 2)).fdiv ((d:ℕ):ℤ) * ((d:ℕ):ℤ)))
      = ((depthN d m t : ℕ) : ℤ)
  rw [hfd, ← Nat.cast_max]
  simp only [Int.cast_natCast]
  simp only [lt_nineTenths_iff]
  simp only [depthN]
  split_ifs with h
  · push_cast; ring
  · rfl

theorem depthN8_cases (m t : ℕ) :
    (8 ∣ depthN 8 m t ∨ depthN 8 m t = m ∨ depthN 8 m t = m + 8) ∧
      9 * t ≤ 10 * depthN 8 m t := by
  have hdm := Nat.div_add_mod (t + 4) 8
  have hmod : (t + 4) % 8 < 8 := Nat.mod_lt _ (by norm_num)
  have hd : depthN 8 m t =
      if 10 * max m ((t + 4) / 8 * 8) < 9 * t then max m ((t + 4) / 8 * 8) + 8
      else max m ((t + 4) / 8 * 8) := rfl
  rw [hd]
  rcases Nat.le_total m ((t + 4) / 8 * 8) with hle | hle
  · rw [Nat.max_eq_right hle]
    split_ifs with hfire
    · exact ⟨Or.inl ⟨(t + 4) / 8 + 1, by ring⟩, by omega⟩
    · exact ⟨Or.inl ⟨(t + 4) / 8, by ring⟩, by omega⟩
  · rw [Nat.max_eq_left hle]
    split_ifs with hfire
    · exact ⟨Or.inr (Or.inr rfl), by omega⟩
    · exact ⟨Or.inr (Or.inl rfl), by omega⟩

theorem nat_halfdiv (t d : ℕ) : (2 * t + d) / (2 * d) = (t + d / 2) / d := by
  rcases Nat.even_or_odd d with he | ho
  · obtain ⟨e, rfl⟩ := he
    have h4 : (e + e) / 2 = e := by omega
    rw [h4, show 2 * t + (e + e) = 2 * (t + e) by ring]
    exact Nat.mul_div_mul_left (t + e) (e + e) (by norm_num)
  · obtain ⟨e, rfl⟩ := ho
    have h4 : (2 * e + 1) / 2 = e := by omega
    rw [h4]
    have hdm := Nat.div_add_mod (t + e) (2 * e + 1)
    have hmod : (t + e) % (2 * e + 1) < 2 * e + 1 := Nat.mod_lt _ (by omega)
    apply Nat.div_eq_of_lt_le
    · calc (t + e) / (2 * e + 1) * (2 * (2 * e + 1))
          = 2 * ((2 * e + 1) * ((t + e) / (2 * e + 1))) := by ring
        _ ≤ 2 * t + (2 * e + 1) := by omega
    · calc 2 * t + (2 * e + 1)
          < 2 * ((2 * e + 1) * ((t + e) / (2 * e + 1))) + 2 * (2 * e + 1) := by omega
        _ = ((t + e) / (2 * e + 1) + 1) * (2 * (2 * e + 1)) := by ring

theorem spec_floor_eq (t d : ℕ) (hd : 0 < d) :
    ⌊((t : ℚ) + (d : ℚ) / 2) / (d : ℚ)⌋ = (((t + d / 2) / d : ℕ) : ℤ) := by
  have hd0 : ((d : ℚ)) ≠ 0 := by positivity
  have h1 : ((t : ℚ) + (d : ℚ) / 2) / (d : ℚ)
      = (((2 * t + d : ℕ) : ℤ) : ℚ) / ((2 * d : ℕ) : ℚ) := by
    push_cast
    field_simp
    ring
  rw [h1, Rat.floor_intCast_div_natCast, ← Int.ofNat_ediv]
  exact_mod_cast nat_halfdiv t d

theorem round_channels_spec_eq_depthN (t d m : ℕ) (hd : 0 < d) :
    round_channels_spec t d m = ((depthN d m t : ℕ) : ℤ) := by
  show (if ((max ((m:ℕ):ℤ) (⌊((t : ℚ) + (d : ℚ) / 2) / (d : ℚ)⌋ * (d:ℕ)) : ℤ) : ℚ) < 9 / 10 * (t:ℚ)
        then max ((m:ℕ):ℤ) (⌊((t : ℚ) + (d : ℚ) / 2) / (d : ℚ)⌋ * (d:ℕ)) + ((d:ℕ):ℤ)
        else max ((m:ℕ):ℤ) (⌊((t : ℚ) + (d : ℚ) / 2) / (d : ℚ)⌋ * (d:ℕ)))
      = ((depthN d m t : ℕ) : ℤ)
  rw [spec_floor_eq t d hd]
  rw [show ((((t + d / 2) / d : ℕ) : ℤ) * ((d : ℕ) : ℤ)) = (((t + d / 2) / d * d : ℕ) : ℤ) by
    push_cast; ring]
  rw [← Nat.cast_max]
  simp only [Int.cast_natCast]
  simp only [lt_nineTenths_iff]
  simp only [depthN]
  split_ifs with h
  · push_cast; ring
  · rfl

theorem depthN_zero (d m : ℕ) (hd : 0 < d) : depthN d m 0 = m := by
  have h2 : (0 + d / 2) / d = 0 := Nat.div_eq_of_lt (by
    have := Nat.div_lt_self hd (by norm_num : 1 < 2)
    omega)
  simp only [depthN, h2, Nat.zero_mul, Nat.max_eq_left (Nat.zero_le m)]
  simp

/-- Value of the Depth rounding at target 100 with divisor 8 and default
min_value: 100 is exactly halfway between 96 and 104 and the round-half-up
of the source (int(100 + 4) // 8 * 8) selects 104. -/
theorem depth_at_100 : (Depth 8 none none 0).applyD 100 = 104 := by
  have h : (Depth 8 none none 0).applyD ((100 : ℕ) : ℚ)
      = ((depthN 8 8 100 : ℕ) : ℤ) := applyD_natBridge "depth_0" 8 8 100
  rw [show ((100 : ℕ) : ℚ) = (100 : ℚ) from rfl] at h
  rw [h, show depthN 8 8 100 = 104 from by decide]
  norm_num

/-- Value of the Depth rounding at target 19 with divisor 8 and
min_value 17: the candidate is max(17, 16) = 17 and the correction rule
fires (17 < 0.9 * 19), giving 17 + 8 = 25. -/
theorem depth_at_19_min17 : (Depth 8 (some 17) none 0).applyD 19 = 25 := by
  have h : (Depth 8 (some 17) none 0).applyD ((19 : ℕ) : ℚ)
      = ((depthN 8 17 19 : ℕ) : ℤ) := applyD_natBridge "depth_0" 8 17 19
  rw [show ((19 : ℕ) : ℚ) = (19 : ℚ) from rfl] at h
  rw [h, show depthN 8 17 19 = 25 from by decide]
  norm_num

/-- C4 counterexample: round_channels(100, 8) with default min_value does
NOT return 96; the source computes int(100 + 8/2) // 8 * 8 = 104, so the
candidate before correction is 104, not 96 as the claim states. -/
theorem round_channels_100_ne_96 : (Depth 8 none none 0).applyD 100 ≠ 96 := by
  rw [depth_at_100]
  decide

/-- C4 (amended): round_channels(100, 8) with default min_value returns
exactly 104: the candidate before correction is 104 (round-half-up sends
100, exactly halfway between 96 and 104, up to 104), and the correction
rule does not fire because 104 is at least 0.9 * 100 = 90. -/
theorem round_channels_100_eq_104 : (Depth 8 none none 0).applyD 100 = 104 :=
  depth_at_100

/-- C5 counterexample: with the non-multiple-of-8 min_value 17 and target
19, round_channels returns 25, which is neither a multiple of 8 nor equal
to the supplied min_value, refuting the claimed dichotomy. -/
theorem round_channels_min17_not_multiple :
    (Depth 8 (some 17) none 0).applyD 19 = 25
      ∧ ¬ (8 : ℤ) ∣ (Depth 8 (some 17) none 0).applyD 19
      ∧ (Depth 8 (some 17) none 0).applyD 19 ≠ 17 := by
  refine ⟨depth_at_19_min17, ?_, ?_⟩
  · rw [depth_at_19_min17]; decide
  · rw [depth_at_19_min17]; decide

/-- C5 (amended): for every natural target, round_channels(target, 8) with
the default min_value returns a non-negative multiple of 8 that is at
least 0.9 * target; with a supplied min_value m the result is non-negative,
at least 0.9 * target, and is a multiple of 8, or m itself, or m + 8 (the
correction rule can fire on a min_value-clamped candidate). -/
theorem round_channels_rounding_invariant (t m : ℕ) :
    (0 ≤ (Depth 8 none none 0).applyD (t : ℚ)
      ∧ (8 : ℤ) ∣ (Depth 8 none none 0).applyD (t : ℚ)
      ∧ 9 * (t : ℤ) ≤ 10 * (Depth 8 none none 0).applyD (t : ℚ))
    ∧ (0 ≤ (Depth 8 (some (m : ℤ)) none 0).applyD (t : ℚ)
      ∧ ((8 : ℤ) ∣ (Depth 8 (some (m : ℤ)) none 0).applyD (t : ℚ)
          ∨ (Depth 8 (some (m : ℤ)) none 0).applyD (t : ℚ) = (m : ℤ)
          ∨ (Depth 8 (some (m : ℤ)) none 0).applyD (t : ℚ) = (m : ℤ) + 8)
      ∧ 9 * (t : ℤ) ≤ 10 * (Depth 8 (some (m : ℤ)) none 0).applyD (t : ℚ)) := by
  have hb1 : (Depth 8 none none 0).applyD (t : ℚ) = ((depthN 8 8 t : ℕ) : ℤ) :=
    applyD_natBridge "depth_0" 8 8 t
  have hb2 : (Depth 8 (some (m : ℤ)) none 0).applyD (t : ℚ)
      = ((depthN 8 m t : ℕ) : ℤ) := applyD_natBridge "depth_0" 8 m t
  rw [hb1, hb2]
  obtain ⟨hc1, hc2⟩ := depthN8_cases 8 t
  obtain ⟨hd1, hd2⟩ := depthN8_cases m t
  refine ⟨⟨by positivity, ?_, ?_⟩, by positivity, ?_, ?_⟩
  · have h8 : 8 ∣ depthN 8 8 t := by
      rcases hc1 with h | h | h
      · exact h
      · omega
      · omega
    exact_mod_cast h8
  · exact_mod_cast hc2
  · rcases hd1 with h | h | h
    · exact Or.inl (by exact_mod_cast h)
    · exact Or.inr (Or.inl (by exact_mod_cast h))
    · exact Or.inr (Or.inr (by exact_mod_cast h))
  · exact_mod_cast hd2

/-- C6 (confirmed): for every positive target, divisor, and min_value, the
source Depth apply agrees exactly with the rounding rule as the spec words
it (candidate = max(min_value, floor((target + divisor/2)/divisor)*divisor),
plus exactly one divisor step when candidate < 0.9*target), both for a
supplied min_value and for the default min_value = divisor; and
round_channels(0, 8) returns min_value (never zero). -/
theorem round_channels_refines_spec (t d m : ℕ) (ht : 0 < t) (hd : 0 < d)
    (hm : 0 < m) :
    (Depth (d : ℤ) (some (m : ℤ)) none 0).applyD (t : ℚ) = round_channels_spec t d m
    ∧ (Depth (d : ℤ) none none 0).applyD (t : ℚ) = round_channels_spec t d d
    ∧ (Depth 8 (some (m : ℤ)) none 0).applyD 0 = (m : ℤ)
    ∧ (Depth 8 none none 0).applyD 0 = 8 := by
  refine ⟨?_, ?_, ?_, ?_⟩
  · rw [show (Depth (d : ℤ) (some (m : ℤ)) none 0).applyD (t : ℚ)
        = DepthLayer.applyD ⟨(d : ℤ), (m : ℤ), "depth_0"⟩ (t : ℚ) from rfl]
    rw [applyD_natBridge, round_channels_spec_eq_depthN t d m hd]
  · rw [show (Depth (d : ℤ) none none 0).applyD (t : ℚ)
        = DepthLayer.applyD ⟨(d : ℤ), (d : ℤ), "depth_0"⟩ (t : ℚ) from rfl]
    rw [applyD_natBridge, round_channels_spec_eq_depthN t d d hd]
  · have h : (Depth 8 (some (m : ℤ)) none 0).applyD ((0 : ℕ) : ℚ)
        = ((depthN 8 m 0 : ℕ) : ℤ) := applyD_natBridge "depth_0" 8 m 0
    rw [show ((0 : ℕ) : ℚ) = (0 : ℚ) from rfl] at h
    rw [h, depthN_zero 8 m (by norm_num)]
  · have h : (Depth 8 none none 0).applyD ((0 : ℕ) : ℚ)
        = ((depthN 8 8 0 : ℕ) : ℤ) := applyD_natBridge "depth_0" 8 8 0
    rw [show ((0 : ℕ) : ℚ) = (0 : ℚ) from rfl] at h
    rw [h, depthN_zero 8 8 (by norm_num)]
    norm_num

/-- Witness for C6 at target 100, divisor 8, min_value 10. -/
theorem round_channels_refines_spec_witness :
    0 < (100 : ℕ) ∧ 0 < (8 : ℕ) ∧ 0 < (10 : ℕ) ∧
      ((Depth ((8:ℕ) : ℤ) (some ((10:ℕ) : ℤ)) none 0).applyD ((100:ℕ) : ℚ)
          = round_channels_spec 100 8 10
        ∧ (Depth ((8:ℕ) : ℤ) none none 0).applyD ((100:ℕ) : ℚ)
          = round_channels_spec 100 8 8
        ∧ (Depth 8 (some ((10:ℕ) : ℤ)) none 0).applyD 0 = ((10:ℕ) : ℤ)
        ∧ (Depth 8 none none 0).applyD 0 = 8) :=
  ⟨by decide, by decide, by decide,
    round_channels_refines_spec 100 8 10 (by decide) (by decide) (by decide)⟩

/-- C7 (code_bug): the apply closure of CorrectPad fails (UnboundLocalError)
for EVERY kernel size and every input, including the concrete failing input
kernel_size 3 with known even spatial dimensions (4, 4), because the local
kernel_size is read at line 97 before its assignment at line 98; the
intended remainder of the body (lines 100-108), evaluated at that same
input, would return ((0,1),(0,1)) as the claim states. -/
theorem correct_pad_apply_always_fails :
    (∀ (l : CorrectPadLayer) (s : Option ℕ × Option ℕ), l.applyPad s = none)
    ∧ (CorrectPad (KernelSize.int 3) none 0).applyPad (some 4, some 4) = none
    ∧ correctPadBody (resolveKernel (KernelSize.int 3)) (some 4, some 4)
        = some ((0, 1), (0, 1)) :=
  ⟨fun _ _ => rfl, rfl, rfl⟩

/-- C10 (confirmed): the name argument of Depth and of CorrectPad (whether
caller-supplied or auto-generated from the uid counter) is never consulted
by the returned apply closures: for any two names and uids and the same
remaining arguments the closures are equal as functions. -/
theorem layer_name_not_consulted (d : ℤ) (mv : Option ℤ)
    (n1 n2 : Option String) (u1 u2 : ℕ) :
    (Depth d mv n1 u1).applyD = (Depth d mv n2 u2).applyD
    ∧ ∀ (k : KernelSize) (s : Option ℕ × Option ℕ),
        (CorrectPad k n1 u1).applyPad s = (CorrectPad k n2 u2).applyPad s :=
  ⟨rfl, fun _ _ => rfl⟩

/-- C1 (code_bug): the residual branch of the block is NEVER taken.  Line
151 stores the unapplied Depth closure in pointwise_filters, so the guard
of line 225, in_channels == pointwise_filters, is Python int-vs-function
equality and is False for every block configuration and every channel
count; moreover the concrete eligible-looking input (blockB0: stride 1,
block_id 0, 8 input channels, intended projected width 8) produces no
residual sum: the application fails at the projection convolution, whose
filters field is not an integer. -/
theorem residual_never_added :
    (∀ (e s : ℤ) (a : ℚ) (f : ℤ) (bid uid : ℕ) (n : Option String) (c : ℤ),
        pyEqFilters c (InvertedResBlock e s a f bid n uid).pointwise_filters
          = false)
    ∧ InvertedResBlockApply unitBackend blockB0 fm8 = (none, []) :=
  ⟨fun _ _ _ _ _ _ _ _ => rfl, rfl⟩

/-- C2 (code_bug): the projection Conv2D of the block built from
expansion 6, stride 1, alpha 1.0, filters 16, block_id 1 receives as its
filters argument the UNAPPLIED Depth closure with divisor 16 and
min_value 8 (src line 151), not an integer, and in particular not
round_channels(16 * 1.0, 8) = 16 as the claim states. -/
theorem projection_filters_not_rounded :
    blockB1.conv2d_1.filters = Filters.closure (Depth 16 (some 8) none 0)
    ∧ (∀ n : ℤ, blockB1.conv2d_1.filters ≠ Filters.int n)
    ∧ blockB1.conv2d_1.filters
        ≠ Filters.int ((Depth 8 none none 0).applyD 16) := by
  have hpcf : pyInt (((16 : ℤ) : ℚ) * 1) = 16 := by
    rw [show (((16 : ℤ) : ℚ) * 1) = ((16 : ℤ) : ℚ) by norm_num]
    exact pyInt_intCast 16
  refine ⟨?_, fun n h => Filters.noConfusion h, fun h => Filters.noConfusion h⟩
  show Filters.closure (Depth (pyInt (((16 : ℤ) : ℚ) * 1)) (some 8) none 0)
      = Filters.closure (Depth 16 (some 8) none 0)
  rw [hpcf]

/-- C3 (code_bug): for every block with block_id not 0, applying the
returned transformation does NOT perform the expansion pipeline; it fails
immediately (UnboundLocalError): prefix is a local variable of apply
(assigned only in the else branch, line 210) and the block_id path reads it
at line 205 before assignment.  No backend layer is allocated or applied on
that path (empty allocation log). -/
theorem nonzero_block_id_apply_fails {α : Type} (B : Backend α) (e s : ℤ)
    (a : ℚ) (f : ℤ) (bid uid : ℕ) (n : Option String) (x : FeatureMap α)
    (h : bid ≠ 0) :
    InvertedResBlockApply B (InvertedResBlock e s a f bid n uid) x
      = (none, []) := by
  cases bid with
  | zero => exact absurd rfl h
  | succ k => rfl

/-- Witness for C3 at block_id 1 over the concrete backend. -/
theorem nonzero_block_id_apply_fails_witness :
    (1 : ℕ) ≠ 0
    ∧ InvertedResBlockApply unitBackend (InvertedResBlock 6 1 1 16 1 none 0)
        fm8 = (none, []) :=
  ⟨by decide,
    nonzero_block_id_apply_fails unitBackend 6 1 1 16 1 0 none fm8 (by decide)⟩

/-- C8 (confirmed): the builder body is straight-line code with no
validation and no raise: construction succeeds for every configuration,
including invalid ones (stride outside {1,2}, alpha, filters or expansion
non-positive); the only possible failures are backend-internal and
propagate to the caller, which is out of the scope of the builder itself. -/
theorem builder_accepts_invalid_config (e s : ℤ) (a : ℚ) (f : ℤ)
    (bid uid : ℕ) (n : Option String)
    (h : (s ≠ 1 ∧ s ≠ 2) ∨ a ≤ 0 ∨ f ≤ 0 ∨ e ≤ 0) :
    InvertedResBlockE e s a f bid n uid
      = Except.ok (InvertedResBlock e s a f bid n uid) := rfl

/-- Witness for C8 at the invalid stride 3. -/
theorem builder_accepts_invalid_config_witness :
    (((3 : ℤ) ≠ 1 ∧ (3 : ℤ) ≠ 2) ∨ (1 : ℚ) ≤ 0 ∨ (16 : ℤ) ≤ 0 ∨ (6 : ℤ) ≤ 0)
    ∧ InvertedResBlockE 6 3 1 16 1 none 0
        = Except.ok (InvertedResBlock 6 3 1 16 1 none 0) :=
  ⟨Or.inl ⟨by decide, by decide⟩,
    builder_accepts_invalid_config 6 3 1 16 1 0 none
      (Or.inl ⟨by decide, by decide⟩)⟩

/-- C9 (code_bug): one call of InvertedResBlock (here with block_id 1)
allocates each of its eight backend sublayers exactly once, at build time
(the list of allocated names, in source order, is duplicate-free); but the
expansion convolution is NEVER allocated inside an application of the
returned transformation: for every input the application fails before
reaching the Conv2D constructor of line 199 (the name argument
prefix + "expand" is evaluated first and reads the unassigned local
prefix), leaving an empty apply-time allocation log. -/
theorem sublayer_allocation_log :
    buildAllocs blockB1
      = ["block_1_expand_BN", "block_1_expand_relu", "block_1_depthwise",
         "block_1_depthwise_BN", "block_1_depthwise_relu", "block_1_project",
         "block_1_project_BN", "block_1_add"]
    ∧ (buildAllocs blockB1).Nodup
    ∧ ∀ x : FeatureMap Unit,
        InvertedResBlockApply unitBackend blockB1 x = (none, []) :=
  ⟨rfl, by decide, fun _ => rfl⟩

end MobileNetV2
